import Mathlib

/-!
Verification of the saas-starter API middleware pipeline: in-memory rate
limiter (`src/lib/api/rate-limit.ts`), session/bearer authentication
(`src/lib/api/auth.ts`), role/permission authorization
(`src/lib/permissions`), audit logging (`src/lib/audit/logger.ts`),
pagination parsing (`src/lib/api/utils.ts`), and the API route pipelines
under `src/pages/api/v1`.

Times are milliseconds since the epoch, modelled as `Nat`.  JavaScript
numbers that can be `NaN` are modelled by the `JsNum` type.
-/

/-- Error codes from `src/lib/api/types.ts` (`ApiErrorCode`). -/
inductive ApiErrorCode where
  | UNAUTHORIZED
  | INVALID_TOKEN
  | TOKEN_EXPIRED
  | VALIDATION_ERROR
  | INVALID_INPUT
  | MISSING_FIELD
  | NOT_FOUND
  | ALREADY_EXISTS
  | RATE_LIMIT_EXCEEDED
  | INTERNAL_ERROR
  | DATABASE_ERROR
  deriving DecidableEq, Repr

/-- The string value of each `ApiErrorCode` member (they are string enums
in `src/lib/api/types.ts`). -/
def errCodeStr : ApiErrorCode → String
  | .UNAUTHORIZED => "UNAUTHORIZED"
  | .INVALID_TOKEN => "INVALID_TOKEN"
  | .TOKEN_EXPIRED => "TOKEN_EXPIRED"
  | .VALIDATION_ERROR => "VALIDATION_ERROR"
  | .INVALID_INPUT => "INVALID_INPUT"
  | .MISSING_FIELD => "MISSING_FIELD"
  | .NOT_FOUND => "NOT_FOUND"
  | .ALREADY_EXISTS => "ALREADY_EXISTS"
  | .RATE_LIMIT_EXCEEDED => "RATE_LIMIT_EXCEEDED"
  | .INTERNAL_ERROR => "INTERNAL_ERROR"
  | .DATABASE_ERROR => "DATABASE_ERROR"

/-- `RateLimitConfig` from `rate-limit.ts` (the `keyPrefix` field only
affects the map key string and is irrelevant to single-key behaviour). -/
structure RateLimitConfig where
  windowMs : Nat
  maxRequests : Nat
  deriving DecidableEq, Repr

/-- A stored counter in `rateLimitStore`: `{ count, resetAt }`. -/
structure RateLimitEntry where
  count : Nat
  resetAt : Nat
  deriving DecidableEq, Repr

/-- `RateLimitInfo` from `rate-limit.ts`. -/
structure RateLimitInfo where
  limit : Nat
  remaining : Nat
  reset : Nat
  deriving DecidableEq, Repr

/-- The result of `checkRateLimit`: `{ allowed, info, error? }` (we keep
the error's `code`; its `message` is a human-readable string built from
`resetAt`). -/
structure RateLimitResult where
  allowed : Bool
  info : RateLimitInfo
  errorCode : Option ApiErrorCode
  deriving DecidableEq, Repr

/-- `checkRateLimit(key, config)` from `rate-limit.ts`, as a function of
the current time and of the entry stored for the key (`none` when the
store has no entry).  Returns the result together with the new stored
entry.  `Nat` subtraction `maxRequests - count` implements JavaScript's
`Math.max(0, maxRequests - count)`, and `/ 1000` is `Math.floor(x/1000)`.
The probabilistic `cleanupExpiredEntries` sweep only deletes entries with
`resetAt < now`, which `checkRateLimit` would replace anyway; see
`checkRateLimit_cleanup` below. -/
def checkRateLimit (now : Nat) (config : RateLimitConfig)
    (stored : Option RateLimitEntry) : RateLimitResult × RateLimitEntry :=
  let entry : RateLimitEntry :=
    match stored with
    | none => { count := 0, resetAt := now + config.windowMs }
    | some e =>
      if e.resetAt < now then { count := 0, resetAt := now + config.windowMs } else e
  let info : RateLimitInfo :=
    { limit := config.maxRequests
      remaining := config.maxRequests - entry.count
      reset := entry.resetAt / 1000 }
  if config.maxRequests ≤ entry.count then
    ({ allowed := false, info := info, errorCode := some .RATE_LIMIT_EXCEEDED }, entry)
  else
    ({ allowed := true
       info := { info with remaining := info.remaining - 1 }
       errorCode := none },
     { entry with count := entry.count + 1 })

/-- The per-key effect of `cleanupExpiredEntries`: an entry is deleted
exactly when `resetAt < now`. -/
def cleanupEntry (now : Nat) (stored : Option RateLimitEntry) :
    Option RateLimitEntry :=
  match stored with
  | none => none
  | some e => if e.resetAt < now then none else some e

/-- A sequence of `checkRateLimit` calls for one key at the given times,
threading the stored entry. -/
def callsFrom (config : RateLimitConfig) :
    Option RateLimitEntry → List Nat →
    List RateLimitResult × Option RateLimitEntry
  | s, [] => ([], s)
  | s, t :: ts =>
    let step := checkRateLimit t config s
    let rest := callsFrom config (some step.2) ts
    (step.1 :: rest.1, rest.2)

/-- The result of the `(j+1)`-th call (0-indexed `j`) in a window whose
counter resets at `R`: calls with index below `maxRequests` are allowed
with `remaining = maxRequests - j - 1`; later calls are rejected with
`RATE_LIMIT_EXCEEDED`. -/
def fixedWindowResult (config : RateLimitConfig) (R j : Nat) : RateLimitResult :=
  if j < config.maxRequests then
    { allowed := true
      info := { limit := config.maxRequests
                remaining := config.maxRequests - j - 1
                reset := R / 1000 }
      errorCode := none }
  else
    { allowed := false
      info := { limit := config.maxRequests, remaining := 0, reset := R / 1000 }
      errorCode := some .RATE_LIMIT_EXCEEDED }

/-! ## Authentication (`src/lib/api/auth.ts`, `src/lib/api/utils.ts`) -/

/-- Outcome of the external `getSession(cookies)` call: a session with a
user, no session (or a session without a user), or a thrown error. -/
inductive SessionOutcome where
  | ok (userId : String)
  | missing
  | thrown
  deriving DecidableEq, Repr

/-- Outcome of the external `supabase.auth.getUser(token)` call: a user,
a provider-reported failure (`error` set or no user), or a thrown
error. -/
inductive TokenOutcome where
  | ok (userId : String)
  | invalid
  | thrown
  deriving DecidableEq, Repr

/-- The `{ user?, error? }` result shape of `verifyApiAuth` and
`verifyApiBearerAuth` (error messages elided; only codes matter here). -/
structure AuthResult where
  user : Option String
  error : Option ApiErrorCode
  deriving DecidableEq, Repr

/-- `verifyApiAuth(cookies)` from `auth.ts` as a function of the session
lookup's outcome. -/
def verifyApiAuth : SessionOutcome → AuthResult
  | .ok uid => { user := some uid, error := none }
  | .missing => { user := none, error := some .UNAUTHORIZED }
  | .thrown => { user := none, error := some .INVALID_TOKEN }

/-- `extractBearerToken(request)` from `utils.ts`: `null` unless the
`Authorization` header starts with `"Bearer "`; otherwise the substring
from index 7 (`startsWith`/`substring` are computed on the character
list, which is their JavaScript semantics for these ASCII literals). -/
def extractBearerToken (authorization : Option String) : Option String :=
  match authorization with
  | none => none
  | some h =>
    if "Bearer ".toList.isPrefixOf h.toList then
      some (String.mk (h.toList.drop 7))
    else none

/-- `verifyApiBearerAuth(request)` from `auth.ts`, as a function of the
`Authorization` header and of the external token verification. -/
def verifyApiBearerAuth (authorization : Option String)
    (verifyToken : String → TokenOutcome) : AuthResult :=
  match extractBearerToken authorization with
  | none => { user := none, error := some .UNAUTHORIZED }
  | some token =>
    match verifyToken token with
    | .ok uid => { user := some uid, error := none }
    | .invalid => { user := none, error := some .INVALID_TOKEN }
    | .thrown => { user := none, error := some .INVALID_TOKEN }

/-- The authentication-relevant inputs of a request to a v1 route. -/
structure AuthEnv where
  session : SessionOutcome
  authorization : Option String
  verifyToken : String → TokenOutcome

/-- JavaScript `a || b` on possibly-undefined object values. -/
def jsOr {α : Type} : Option α → Option α → Option α
  | some a, _ => some a
  | none, b => b

/-- The result of the session-then-bearer composition used by the
protected v1 routes. -/
structure ComposedAuth where
  user : Option String
  error : Option ApiErrorCode
  bearerAttempted : Bool
  deriving Repr

/-- The composition block shared by `projects/index.ts`,
`profile/index.ts` and `projects/[id].ts`:
`sessionAuth = verifyApiAuth(cookies)`;
`bearerAuth = !sessionAuth.user ? verifyApiBearerAuth(request) : { user: sessionAuth.user }`;
`user = sessionAuth.user || bearerAuth.user`;
`error = sessionAuth.error || bearerAuth.error` (read on the failure
path). -/
def composeAuth (env : AuthEnv) : ComposedAuth :=
  let sessionAuth := verifyApiAuth env.session
  let bearerAuth : AuthResult :=
    if sessionAuth.user.isNone then
      verifyApiBearerAuth env.authorization env.verifyToken
    else { user := sessionAuth.user, error := none }
  { user := jsOr sessionAuth.user bearerAuth.user
    error := jsOr sessionAuth.error bearerAuth.error
    bearerAttempted := sessionAuth.user.isNone }

/-! ## Roles and permissions (`src/lib/permissions`) -/

/-- `UserRole` from `src/lib/permissions/types.ts`. -/
inductive UserRole where
  | user
  | admin
  | super_admin
  deriving DecidableEq, Repr

/-- `Permission` from `src/lib/permissions/types.ts`. -/
inductive Permission where
  | VIEW_OWN_PROFILE
  | EDIT_OWN_PROFILE
  | DELETE_OWN_ACCOUNT
  | VIEW_ALL_USERS
  | EDIT_ALL_USERS
  | DELETE_USERS
  | VIEW_ANALYTICS
  | VIEW_SYSTEM_HEALTH
  | VIEW_AUDIT_LOGS
  | MANAGE_ADMINS
  | MANAGE_SYSTEM_SETTINGS
  | EXPORT_DATA
  | VIEW_ALL_SUBSCRIPTIONS
  | MANAGE_SUBSCRIPTIONS
  | ISSUE_REFUNDS
  deriving DecidableEq, Fintype, Repr

/-- `Object.values(Permission)`: every permission, in declaration
order. -/
def allPermissions : List Permission :=
  [.VIEW_OWN_PROFILE, .EDIT_OWN_PROFILE, .DELETE_OWN_ACCOUNT,
   .VIEW_ALL_USERS, .EDIT_ALL_USERS, .DELETE_USERS, .VIEW_ANALYTICS,
   .VIEW_SYSTEM_HEALTH, .VIEW_AUDIT_LOGS, .MANAGE_ADMINS,
   .MANAGE_SYSTEM_SETTINGS, .EXPORT_DATA, .VIEW_ALL_SUBSCRIPTIONS,
   .MANAGE_SUBSCRIPTIONS, .ISSUE_REFUNDS]

/-- The `rolePermissions` table from `src/lib/permissions/types.ts`. -/
def rolePermissions : UserRole → List Permission
  | .user =>
    [.VIEW_OWN_PROFILE, .EDIT_OWN_PROFILE, .DELETE_OWN_ACCOUNT]
  | .admin =>
    [.VIEW_OWN_PROFILE, .EDIT_OWN_PROFILE, .DELETE_OWN_ACCOUNT,
     .VIEW_ALL_USERS, .EDIT_ALL_USERS, .VIEW_ANALYTICS,
     .VIEW_SYSTEM_HEALTH, .VIEW_AUDIT_LOGS, .VIEW_ALL_SUBSCRIPTIONS]
  | .super_admin => allPermissions

/-- `hasPermission(role, permission)` from `src/lib/permissions/index.ts`
(the `|| []` fallback is dead code once roles are a closed enum). -/
def hasPermission (role : UserRole) (permission : Permission) : Bool :=
  (rolePermissions role).contains permission

/-- `isAdmin(role)` from `src/lib/permissions/index.ts`. -/
def isAdmin (role : UserRole) : Bool :=
  role = UserRole.admin ∨ role = UserRole.super_admin

/-- `isSuperAdmin(role)` from `src/lib/permissions/index.ts`. -/
def isSuperAdmin (role : UserRole) : Bool :=
  role = UserRole.super_admin

/-- Outcome of the `profiles.select('role').single()` lookup inside
`getUserRole`: a query error, a missing row, or a row whose `role` field
is absent/null (`none`) or a string. -/
inductive RoleLookup where
  | err
  | noRow
  | roleField (value : Option String)
  deriving DecidableEq, Repr

/-- `Object.values(UserRole)` as strings. -/
def roleValues : List String := ["user", "admin", "super_admin"]

/-- The `data.role as UserRole` cast, applied only after the membership
check against `Object.values(UserRole)`. -/
def roleOfString (s : String) : UserRole :=
  if s = "admin" then .admin
  else if s = "super_admin" then .super_admin
  else .user

/-- `getUserRole(supabase, userId)` from `src/lib/permissions/index.ts`
as a function of the lookup's outcome: `if (error || !data?.role)` yields
the default (an empty string is falsy in JavaScript, hence the extra
`= ""` case); otherwise the value is returned only when it is a valid
enum member. -/
def getUserRole : RoleLookup → UserRole
  | .err => .user
  | .noRow => .user
  | .roleField none => .user
  | .roleField (some s) =>
    if s = "" then .user
    else if roleValues.contains s then roleOfString s
    else .user

/-! ## Responses, audit logging, and route pipelines -/

/-- The names of the three rate-limit headers set by
`addRateLimitHeaders` in `rate-limit.ts` (and by the admin routes'
literal 429 header objects). -/
def rlHeaderNames : List String :=
  ["X-RateLimit-Limit", "X-RateLimit-Remaining", "X-RateLimit-Reset"]

/-- An HTTP response, reduced to what the claims observe: status code,
a body marker (the error `code`/`message`, or a payload marker for
success), and the names of the headers set on it. -/
structure HttpResponse where
  status : Nat
  body : String
  headers : List String
  deriving DecidableEq, Repr

/-- `addRateLimitHeaders(headers, info)` from `rate-limit.ts`: sets the
three `X-RateLimit-*` headers (values elided; only presence is
observed). -/
def addRateLimitHeaders (headers : List String) : List String :=
  headers ++ rlHeaderNames

/-- Response with the three rate-limit headers attached, as every
post-rate-limit path of the v1 routes does. -/
def withRateLimitHeaders (r : HttpResponse) : HttpResponse :=
  { r with headers := addRateLimitHeaders r.headers }

/-- Whether a response carries all three rate-limit headers. -/
def hasRateLimitHeaders (r : HttpResponse) : Bool :=
  r.headers.contains "X-RateLimit-Limit" &&
  r.headers.contains "X-RateLimit-Remaining" &&
  r.headers.contains "X-RateLimit-Reset"

/-- `createApiResponse(data, meta, status)` from `src/lib/api/utils.ts`:
a JSON response with a `Content-Type` header; the payload is abstracted
to a marker string. -/
def createApiResponse (payload : String) (status : Nat) : HttpResponse :=
  { status := status, body := payload, headers := ["Content-Type"] }

/-- `createErrorResponse(code, message, status)` from
`src/lib/api/utils.ts`: the body is `{error: {code, message}}`, kept here
as the code's string. -/
def createErrorResponse (code : ApiErrorCode) (status : Nat) : HttpResponse :=
  { status := status, body := errCodeStr code, headers := ["Content-Type"] }

/-- Modelled from the spec: `createErrorResponse(message, status,
headers?)` of the admin routes' response module (`@/lib/api/response`,
not present in the sources; only its call sites are).  Per §6 it shapes
`{error: {code, message}}` with the given status and sets the extra
headers passed by the caller. -/
def createAdminErrorResponse (message : String) (status : Nat)
    (extraHeaders : List String) : HttpResponse :=
  { status := status, body := message, headers := "Content-Type" :: extraHeaders }

/-- Modelled from the spec: `createApiResponse(data, status?)` of the
admin routes' response module; shapes `{data}` with the given status. -/
def createAdminApiResponse (payload : String) (status : Nat) : HttpResponse :=
  { status := status, body := payload, headers := ["Content-Type"] }

/-- An `AuditLogEntry` from `src/lib/audit/logger.ts` (`details` and the
request-derived `ip_address`/`user_agent` elided — they never affect
control flow). -/
structure AuditLogEntry where
  action : String
  resource_type : String
  resource_id : Option String
  user_id : Option String
  deriving DecidableEq, Repr

/-- Outcome of the `audit_logs` insert performed by `AuditLogger.log`:
success, an `error` result, or a thrown exception. -/
inductive InsertOutcome where
  | ok
  | errorResult
  | thrown
  deriving DecidableEq, Repr

/-- `AuditLogger.log(entry)` from `src/lib/audit/logger.ts`, as a
function of the insert's outcome.  `Except.error` would represent an
exception escaping to the caller; an `error` result is only
`console.error`-logged and a thrown exception is caught, so every branch
returns normally. -/
def auditLog (entry : AuditLogEntry) (insert : InsertOutcome) :
    Except String Unit :=
  match insert with
  | .ok => .ok ()
  | .errorResult => .ok ()
  | .thrown => .ok ()

/-- `AuditLogger.logAdminAction(action, adminId, resourceType,
resourceId, details, request)`: funnels into `log` with a namespaced
action string. -/
def logAdminAction (action adminId resourceType : String)
    (resourceId : Option String) (insert : InsertOutcome) :
    Except String Unit :=
  auditLog
    { action := "admin." ++ action
      resource_type := resourceType
      resource_id := resourceId
      user_id := some adminId }
    insert

/-- The named rate-limit policies from `rate-limit.ts`. -/
def RateLimits.api : RateLimitConfig := ⟨15 * 60 * 1000, 100⟩

def RateLimits.auth : RateLimitConfig := ⟨15 * 60 * 1000, 5⟩

def RateLimits.read : RateLimitConfig := ⟨1 * 60 * 1000, 60⟩

def RateLimits.write : RateLimitConfig := ⟨1 * 60 * 1000, 10⟩

/-- Observable steps of a route's execution, in order. -/
inductive RouteEvent where
  | authCall
  | rateLimitCall
  | handlerCall
  | auditCall
  | deleteUserCall
  | createUserCall
  | refundCall
  deriving DecidableEq, Repr

/-- The request-scoped inputs of `GET /api/v1/projects`. -/
structure ProjectsEnv where
  auth : AuthEnv
  now : Nat
  stored : Option RateLimitEntry
  dbOk : Bool

/-- `GET /api/v1/projects` (`src/pages/api/v1/projects/index.ts`):
authenticate (session-then-bearer); on failure a bare 401; then the
`read`-policy rate-limit check keyed by the user id; then the handler.
All post-rate-limit responses get the rate-limit headers.  Returns the
response and the executed steps in order. -/
def projectsGET (env : ProjectsEnv) : HttpResponse × List RouteEvent :=
  let auth := composeAuth env.auth
  match auth.user with
  | none =>
    (createErrorResponse (auth.error.getD .UNAUTHORIZED) 401, [.authCall])
  | some _ =>
    let rl := checkRateLimit env.now RateLimits.read env.stored
    if rl.1.allowed = false then
      (withRateLimitHeaders (createErrorResponse .RATE_LIMIT_EXCEEDED 429),
       [.authCall, .rateLimitCall])
    else if env.dbOk then
      (withRateLimitHeaders (createApiResponse "projects" 200),
       [.authCall, .rateLimitCall, .handlerCall])
    else
      (withRateLimitHeaders (createErrorResponse .INTERNAL_ERROR 500),
       [.authCall, .rateLimitCall, .handlerCall])

/-- Outcome of the profile fetch in `handleGetProfile`. -/
inductive ProfileOutcome where
  | found
  | missing
  | thrown
  deriving DecidableEq, Repr

/-- The request-scoped inputs of `GET /api/v1/profile`. -/
structure ProfileEnv where
  auth : AuthEnv
  now : Nat
  stored : Option RateLimitEntry
  profile : ProfileOutcome

/-- `handleGetProfile(userId, cookies)` from `profile/index.ts`. -/
def handleGetProfile : ProfileOutcome → HttpResponse
  | .found => createApiResponse "profile" 200
  | .missing => createErrorResponse .NOT_FOUND 404
  | .thrown => createErrorResponse .INTERNAL_ERROR 500

/-- `GET /api/v1/profile` (`src/pages/api/v1/profile/index.ts`): same
shape as the projects route, except that the handler-or-429 response is
chosen first and the rate-limit headers are attached to it once. -/
def profileGET (env : ProfileEnv) : HttpResponse × List RouteEvent :=
  let auth := composeAuth env.auth
  match auth.user with
  | none =>
    (createErrorResponse (auth.error.getD .UNAUTHORIZED) 401, [.authCall])
  | some _ =>
    let rl := checkRateLimit env.now RateLimits.read env.stored
    let response :=
      if rl.1.allowed then handleGetProfile env.profile
      else createErrorResponse .RATE_LIMIT_EXCEEDED 429
    (withRateLimitHeaders response,
     [.authCall, .rateLimitCall] ++ (if rl.1.allowed then [.handlerCall] else []))

/-! ## Pagination parsing (`src/lib/api/utils.ts`) -/

/-- A JavaScript number as produced by `parseInt`: an integer or
`NaN`. -/
inductive JsNum where
  | nan
  | num (n : Int)
  deriving DecidableEq, Repr

/-- Value of the leading digit run, `none` when there is none. -/
def digitsVal (cs : List Char) : Option Nat :=
  let ds := cs.takeWhile Char.isDigit
  if ds.isEmpty then none
  else some (ds.foldl (fun a c => a * 10 + (c.toNat - '0'.toNat)) 0)

/-- `parseInt(s, 10)`: skip leading whitespace, accept an optional sign,
then the longest digit run; `NaN` when no digits follow. -/
def parseIntJs (s : String) : JsNum :=
  let cs := s.toList.dropWhile Char.isWhitespace
  match cs with
  | '-' :: rest =>
    match digitsVal rest with
    | none => .nan
    | some n => .num (-(n : Int))
  | '+' :: rest =>
    match digitsVal rest with
    | none => .nan
    | some n => .num n
  | rest =>
    match digitsVal rest with
    | none => .nan
    | some n => .num n

/-- JavaScript `Math.max` on two numbers: `NaN` absorbs. -/
def jsMax : JsNum → JsNum → JsNum
  | .num x, .num y => .num (max x y)
  | _, _ => .nan

/-- JavaScript `Math.min` on two numbers: `NaN` absorbs. -/
def jsMin : JsNum → JsNum → JsNum
  | .num x, .num y => .num (min x y)
  | _, _ => .nan

/-- JavaScript `<` on numbers: every comparison with `NaN` is false. -/
def jsLt : JsNum → JsNum → Bool
  | .num x, .num y => x < y
  | _, _ => false

/-- JavaScript `>` on numbers: every comparison with `NaN` is false. -/
def jsGt : JsNum → JsNum → Bool
  | .num x, .num y => y < x
  | _, _ => false

/-- JavaScript `v || dflt` on a nullable string: `null` and `""` are
falsy. -/
def paramOr (v : Option String) (dflt : String) : String :=
  match v with
  | none => dflt
  | some s => if s = "" then dflt else s

/-- `PaginationParams` as produced by `parsePaginationParams`. -/
structure PaginationParams where
  page : JsNum
  limit : JsNum
  sort : Option String
  ord : String
  deriving DecidableEq, Repr

/-- `parsePaginationParams(url)` from `src/lib/api/utils.ts`, as a
function of the four query parameters (`null` when absent):
`page: Math.max(1, parseInt(params.get('page') || '1', 10))`,
`limit: Math.min(100, Math.max(1, parseInt(params.get('limit') || '10', 10)))`,
`sort: params.get('sort') || undefined`,
`order: (params.get('order') || 'asc')`. -/
def parsePaginationParams (pageP limitP sortP orderP : Option String) :
    PaginationParams :=
  { page := jsMax (.num 1) (parseIntJs (paramOr pageP "1"))
    limit := jsMin (.num 100) (jsMax (.num 1) (parseIntJs (paramOr limitP "10")))
    sort := match sortP with
            | none => none
            | some s => if s = "" then none else some s
    ord := paramOr orderP "asc" }

/-! ## Admin route pipelines

The admin routes import `rateLimit`, `authenticateRequest` and the
`@/lib/api/response` helpers from modules that are not present in the
sources — only their call sites are.  Their *outcomes* are therefore
inputs of the route models below, and the response shaping follows the
spec (§6). -/

/-- Modelled from the spec: the result shape of the admin routes'
`rateLimit(request, policy)` helper (its module is absent from the
sources): `{allowed, limit, remaining, resetTime}`, consumed by the
routes for the 429 path and its headers. -/
structure AdminRateLimitResult where
  allowed : Bool
  limit : Nat
  remaining : Nat
  resetTime : Nat
  deriving DecidableEq, Repr

/-- JavaScript falsiness of a nullable string (`null`/`undefined` and
`""`). -/
def jsFalsyStr : Option String → Bool
  | none => true
  | some s => s = ""

/-- The request-scoped inputs of `GET /api/v1/admin/users`. -/
structure AdminListEnv where
  rl : AdminRateLimitResult
  authUser : Option String
  roleLookup : RoleLookup
  pageP : Option String
  limitP : Option String
  dbOk : Bool

/-- `GET /api/v1/admin/users` (`src/pages/api/v1/admin/users/index.ts`):
rate limit (429 with the three rate-limit headers), authenticate (bare
401), `isAdmin` gate (403), then pagination validation (the plain
`parseInt(x)` calls are decimal for these inputs) and the handler. -/
def adminUsersGET (env : AdminListEnv) : HttpResponse × List RouteEvent :=
  if env.rl.allowed = false then
    (createAdminErrorResponse "Too many requests" 429 rlHeaderNames,
     [.rateLimitCall])
  else match env.authUser with
  | none =>
    (createAdminErrorResponse "Unauthorized" 401 [], [.rateLimitCall, .authCall])
  | some _ =>
    let role := getUserRole env.roleLookup
    if isAdmin role = false then
      (createAdminErrorResponse "Forbidden: Admin access required" 403 [],
       [.rateLimitCall, .authCall])
    else
      let page := parseIntJs (paramOr env.pageP "1")
      let lim := parseIntJs (paramOr env.limitP "20")
      if jsLt page (.num 1) || jsLt lim (.num 1) || jsGt lim (.num 100) then
        (createAdminErrorResponse "Invalid pagination parameters" 400 [],
         [.rateLimitCall, .authCall, .handlerCall])
      else if env.dbOk then
        (createAdminApiResponse "users" 200,
         [.rateLimitCall, .authCall, .handlerCall])
      else
        (createAdminErrorResponse "Internal server error" 500 [],
         [.rateLimitCall, .authCall, .handlerCall])

/-- The JSON body of `POST /api/v1/admin/users`. -/
structure CreateUserBody where
  email : Option String
  password : Option String
  full_name : Option String
  role : Option String
  deriving DecidableEq, Repr

/-- The request-scoped inputs of `POST /api/v1/admin/users` (`body =
none` means `request.json()` threw). -/
structure AdminCreateEnv where
  rl : AdminRateLimitResult
  authUser : Option String
  roleLookup : RoleLookup
  body : Option CreateUserBody
  createOk : Bool
  profileOk : Bool
  deriving Repr

/-- `POST /api/v1/admin/users`: rate limit, authenticate, then the
explicit `role !== 'super_admin'` gate (403) before the body is even
parsed; field presence and `['user','admin'].includes(role)` checks;
`auth.admin.createUser` (the effect), profile update with rollback, 201
on success, 500 on any thrown error. -/
def adminUsersPOST (env : AdminCreateEnv) : HttpResponse × List RouteEvent :=
  if env.rl.allowed = false then
    (createAdminErrorResponse "Too many requests" 429 rlHeaderNames,
     [.rateLimitCall])
  else match env.authUser with
  | none =>
    (createAdminErrorResponse "Unauthorized" 401 [], [.rateLimitCall, .authCall])
  | some _ =>
    let role := getUserRole env.roleLookup
    if role ≠ UserRole.super_admin then
      (createAdminErrorResponse "Forbidden: Super admin access required" 403 [],
       [.rateLimitCall, .authCall])
    else match env.body with
    | none =>
      (createAdminErrorResponse "Failed to create user" 500 [],
       [.rateLimitCall, .authCall])
    | some b =>
      if jsFalsyStr b.email || jsFalsyStr b.password || jsFalsyStr b.full_name then
        (createAdminErrorResponse "Missing required fields" 400 [],
         [.rateLimitCall, .authCall])
      else if (match b.role with
               | some r => (["user", "admin"].contains r)
               | none => false) = false then
        (createAdminErrorResponse "Invalid role" 400 [],
         [.rateLimitCall, .authCall])
      else if env.createOk = false then
        (createAdminErrorResponse "Failed to create user" 500 [],
         [.rateLimitCall, .authCall, .createUserCall])
      else if env.profileOk = false then
        (createAdminErrorResponse "Failed to create user" 500 [],
         [.rateLimitCall, .authCall, .createUserCall])
      else
        (createAdminApiResponse "user created" 201,
         [.rateLimitCall, .authCall, .createUserCall])

/-- The request-scoped inputs of `DELETE /api/v1/admin/users/[id]`
(`targetRole = none` means the target profile fetch failed or found no
row; `superAdminCount` is the head-count query's `count`, consulted only
when the target is a super admin). -/
structure AdminDeleteEnv where
  rl : AdminRateLimitResult
  authUser : Option String
  roleLookup : RoleLookup
  targetId : Option String
  targetRole : Option String
  superAdminCount : Option Nat
  deleteOk : Bool
  audit : InsertOutcome
  deriving Repr

/-- `DELETE /api/v1/admin/users/[id]`: rate limit, authenticate, the
explicit `role !== 'super_admin'` gate (403), missing-id and
self-deletion guards, target fetch, last-super-admin guard, the
`auth.admin.deleteUser` effect (500 on failure), then the audit write and
the success payload. -/
def adminUserDELETE (env : AdminDeleteEnv) : HttpResponse × List RouteEvent :=
  if env.rl.allowed = false then
    (createAdminErrorResponse "Too many requests" 429 rlHeaderNames,
     [.rateLimitCall])
  else match env.authUser with
  | none =>
    (createAdminErrorResponse "Unauthorized" 401 [], [.rateLimitCall, .authCall])
  | some selfId =>
    let role := getUserRole env.roleLookup
    if role ≠ UserRole.super_admin then
      (createAdminErrorResponse "Forbidden: Super admin access required" 403 [],
       [.rateLimitCall, .authCall])
    else match env.targetId with
    | none =>
      (createAdminErrorResponse "User ID required" 400 [],
       [.rateLimitCall, .authCall])
    | some uid =>
      if uid = selfId then
        (createAdminErrorResponse "Cannot delete your own account" 400 [],
         [.rateLimitCall, .authCall])
      else match env.targetRole with
      | none =>
        (createAdminErrorResponse "User not found" 404 [],
         [.rateLimitCall, .authCall])
      | some trole =>
        if trole = "super_admin" ∧ env.superAdminCount = some 1 then
          (createAdminErrorResponse "Cannot delete the last super admin" 400 [],
           [.rateLimitCall, .authCall])
        else if env.deleteOk = false then
          (createAdminErrorResponse "Failed to delete user" 500 [],
           [.rateLimitCall, .authCall, .deleteUserCall])
        else
          match logAdminAction "user_deleted" selfId "user" (some uid) env.audit with
          | .ok _ =>
            (createAdminApiResponse "User deleted successfully" 200,
             [.rateLimitCall, .authCall, .deleteUserCall, .auditCall])
          | .error _ =>
            (createAdminErrorResponse "Failed to delete user" 500 [],
             [.rateLimitCall, .authCall, .deleteUserCall, .auditCall])

/-- The `payment_intent` field of the latest invoice in the refund path:
absent/null, expanded to a string id, or a full object (only the object
form is accepted). -/
inductive PaymentIntentField where
  | absent
  | strId
  | obj
  deriving DecidableEq, Repr

/-- Outcome of `stripe.invoices.list` in the refund path. -/
inductive InvoicesOutcome where
  | thrown
  | empty
  | latest (pi : PaymentIntentField)
  deriving DecidableEq, Repr

/-- The subscription row fetched by `POST /api/v1/admin/subscriptions`
(fields that steer control flow). -/
structure SubRecord where
  stripeSubId : Option String
  status : String
  cancelAtPeriodEnd : Bool
  deriving DecidableEq, Repr

/-- The JSON body of `POST /api/v1/admin/subscriptions`. -/
structure SubActionBody where
  action : Option String
  subscriptionId : Option String
  deriving DecidableEq, Repr

/-- The request-scoped inputs of `POST /api/v1/admin/subscriptions`
(`body = none`: `request.json()` threw; `subscription = none`: fetch
error or no row; `stripeOk`: the `stripe.subscriptions.update` call of
the cancel/reactivate branches; `refundOk`: `stripe.refunds.create`). -/
structure AdminSubEnv where
  rl : AdminRateLimitResult
  authUser : Option String
  roleLookup : RoleLookup
  body : Option SubActionBody
  subscription : Option SubRecord
  stripeOk : Bool
  invoices : InvoicesOutcome
  refundOk : Bool
  audit : InsertOutcome
  deriving Repr

/-- `POST /api/v1/admin/subscriptions` (admin subscriptions route): rate
limit, authenticate, `isAdmin` gate, body/field checks, subscription
fetch, then the `cancel`/`reactivate`/`refund` switch.  The refund case
checks the Stripe subscription id, then requires `super_admin`
specifically, then walks invoices/payment-intent before creating the
refund and auditing. -/
def adminSubscriptionsPOST (env : AdminSubEnv) : HttpResponse × List RouteEvent :=
  if env.rl.allowed = false then
    (createAdminErrorResponse "Too many requests" 429 rlHeaderNames,
     [.rateLimitCall])
  else match env.authUser with
  | none =>
    (createAdminErrorResponse "Unauthorized" 401 [], [.rateLimitCall, .authCall])
  | some selfId =>
    let role := getUserRole env.roleLookup
    if isAdmin role = false then
      (createAdminErrorResponse "Forbidden: Admin access required" 403 [],
       [.rateLimitCall, .authCall])
    else match env.body with
    | none =>
      (createAdminErrorResponse "Failed to process subscription action" 500 [],
       [.rateLimitCall, .authCall])
    | some b =>
      if jsFalsyStr b.action || jsFalsyStr b.subscriptionId then
        (createAdminErrorResponse "Missing required fields" 400 [],
         [.rateLimitCall, .authCall])
      else match env.subscription with
      | none =>
        (createAdminErrorResponse "Subscription not found" 404 [],
         [.rateLimitCall, .authCall])
      | some sub =>
        match b.action with
        | some "cancel" =>
          if sub.stripeSubId.isNone then
            (createAdminErrorResponse "No Stripe subscription found" 400 [],
             [.rateLimitCall, .authCall])
          else if env.stripeOk = false then
            (createAdminErrorResponse "Failed to process subscription action"
              500 [], [.rateLimitCall, .authCall, .handlerCall])
          else
            match logAdminAction "subscription_canceled" selfId "subscription"
                b.subscriptionId env.audit with
            | .ok _ =>
              (createAdminApiResponse "Subscription canceled successfully" 200,
               [.rateLimitCall, .authCall, .handlerCall, .auditCall])
            | .error _ =>
              (createAdminErrorResponse "Failed to process subscription action"
                500 [], [.rateLimitCall, .authCall, .handlerCall, .auditCall])
        | some "reactivate" =>
          if sub.stripeSubId.isNone then
            (createAdminErrorResponse "No Stripe subscription found" 400 [],
             [.rateLimitCall, .authCall])
          else if ¬ (sub.status = "canceled" ∧ sub.cancelAtPeriodEnd = true) then
            (createAdminErrorResponse
              "Subscription is not scheduled for cancellation" 400 [],
             [.rateLimitCall, .authCall])
          else if env.stripeOk = false then
            (createAdminErrorResponse "Failed to process subscription action"
              500 [], [.rateLimitCall, .authCall, .handlerCall])
          else
            match logAdminAction "subscription_reactivated" selfId "subscription"
                b.subscriptionId env.audit with
            | .ok _ =>
              (createAdminApiResponse "Subscription reactivated successfully" 200,
               [.rateLimitCall, .authCall, .handlerCall, .auditCall])
            | .error _ =>
              (createAdminErrorResponse "Failed to process subscription action"
                500 [], [.rateLimitCall, .authCall, .handlerCall, .auditCall])
        | some "refund" =>
          if sub.stripeSubId.isNone then
            (createAdminErrorResponse "No Stripe subscription found" 400 [],
             [.rateLimitCall, .authCall])
          else if role ≠ UserRole.super_admin then
            (createAdminErrorResponse
              "Forbidden: Super admin access required for refunds" 403 [],
             [.rateLimitCall, .authCall])
          else match env.invoices with
          | .thrown =>
            (createAdminErrorResponse "Failed to process subscription action"
              500 [], [.rateLimitCall, .authCall])
          | .empty =>
            (createAdminErrorResponse "No invoices found for this subscription"
              404 [], [.rateLimitCall, .authCall])
          | .latest pi =>
            if pi ≠ PaymentIntentField.obj then
              (createAdminErrorResponse "No payment found for the latest invoice"
                400 [], [.rateLimitCall, .authCall])
            else if env.refundOk = false then
              (createAdminErrorResponse "Failed to process subscription action"
                500 [], [.rateLimitCall, .authCall, .refundCall])
            else
              match logAdminAction "refund_issued" selfId "subscription"
                  b.subscriptionId env.audit with
              | .ok _ =>
                (createAdminApiResponse "Refund processed successfully" 200,
                 [.rateLimitCall, .authCall, .refundCall, .auditCall])
              | .error _ =>
                (createAdminErrorResponse "Failed to process subscription action"
                  500 [], [.rateLimitCall, .authCall, .refundCall, .auditCall])
        | _ =>
          (createAdminErrorResponse "Invalid action" 400 [],
           [.rateLimitCall, .authCall])

/-- A well-formed delete request from an authenticated `admin`. -/
def adminDeleteAsAdminEnv : AdminDeleteEnv :=
  { rl := { allowed := true, limit := 10, remaining := 9, resetTime := 60000 }
    authUser := some "a1"
    roleLookup := .roleField (some "admin")
    targetId := some "victim"
    targetRole := some "user"
    superAdminCount := some 2
    deleteOk := true
    audit := .ok }

/-- A well-formed refund request from an authenticated `admin`. -/
def refundAsAdminEnv : AdminSubEnv :=
  { rl := { allowed := true, limit := 10, remaining := 9, resetTime := 60000 }
    authUser := some "a1"
    roleLookup := .roleField (some "admin")
    body := some { action := some "refund", subscriptionId := some "sub1" }
    subscription := some
      { stripeSubId := some "stripeSub1", status := "active"
        cancelAtPeriodEnd := false }
    stripeOk := true
    invoices := .latest .obj
    refundOk := true
    audit := .ok }

/-- Request used to refute C1: `GET /api/v1/projects` with a valid
session and an exhausted `read` counter for the user's key. -/
def projectsRateLimitedEnv : ProjectsEnv :=
  { auth := { session := .ok "u1", authorization := none
              verifyToken := fun _ => .invalid }
    now := 1000
    stored := some { count := 60, resetAt := 60000 }
    dbOk := true }

/-- Request with no session and no `Authorization` header. -/
def projectsNoCredsEnv : ProjectsEnv :=
  { auth := { session := .missing, authorization := none
              verifyToken := fun _ => .invalid }
    now := 0
    stored := none
    dbOk := true }

/-- `k ≤ v` as JavaScript would evaluate it: false for `NaN`. -/
def jsNumAtLeast (k : Int) : JsNum → Bool
  | .nan => false
  | .num n => k ≤ n

/-- `v ≤ k` as JavaScript would evaluate it: false for `NaN`. -/
def jsNumAtMost (k : Int) : JsNum → Bool
  | .nan => false
  | .num n => n ≤ k

/-- The opportunistic cleanup sweep never changes what `checkRateLimit`
computes for a key, so omitting the `Math.random()` sweep from the state
model is sound. -/
theorem checkRateLimit_cleanup (now : Nat) (config : RateLimitConfig)
    (stored : Option RateLimitEntry) :
    checkRateLimit now config (cleanupEntry now stored) =
      checkRateLimit now config stored := by
  cases stored with
  | none => rfl
  | some e =>
    by_cases h : e.resetAt < now <;>
      simp [cleanupEntry, checkRateLimit, h]

theorem fixedWindowResult_of_le (config : RateLimitConfig) (R : Nat) {j k : Nat}
    (hj : config.maxRequests ≤ j) (hk : config.maxRequests ≤ k) :
    fixedWindowResult config R j = fixedWindowResult config R k := by
  simp [fixedWindowResult, Nat.not_lt_of_le hj, Nat.not_lt_of_le hk]

/-- One in-window call from a live counter `⟨c, R⟩` (with `t ≤ R`). -/
theorem checkRateLimit_live (config : RateLimitConfig) (R c t : Nat) (ht : t ≤ R) :
    checkRateLimit t config (some ⟨c, R⟩) =
      (fixedWindowResult config R c,
       if c < config.maxRequests then ⟨c + 1, R⟩ else ⟨c, R⟩) := by
  have hres : ¬ R < t := Nat.not_lt_of_le ht
  by_cases h : c < config.maxRequests
  · simp [checkRateLimit, fixedWindowResult, hres, h, Nat.not_le_of_lt h]
  · simp only [Nat.not_lt] at h
    simp [checkRateLimit, fixedWindowResult, hres, h, Nat.not_lt_of_le h,
      Nat.sub_eq_zero_of_le h]

/-- Indexwise characterization of in-window call sequences from a live
counter: the call at index `i` behaves like the `(c+i)`-th call of the
window. -/
theorem callsFrom_live_get (config : RateLimitConfig) (R : Nat) :
    ∀ (ts : List Nat), (∀ t ∈ ts, t ≤ R) → ∀ (c i : Nat), i < ts.length →
      ((callsFrom config (some ⟨c, R⟩) ts).1)[i]? =
        some (fixedWindowResult config R (c + i)) := by
  intro ts
  induction ts with
  | nil => intro _ c i hi; exact absurd hi (by simp)
  | cons t ts ih =>
    intro hin c i hi
    have ht : t ≤ R := hin t (by simp)
    have hts : ∀ u ∈ ts, u ≤ R := fun u hu => hin u (by simp [hu])
    by_cases hc : c < config.maxRequests
    · cases i with
      | zero => simp [callsFrom, checkRateLimit_live config R c t ht, hc]
      | succ i =>
        have hi' : i < ts.length := by simpa using hi
        have := ih hts (c + 1) i hi'
        simp [callsFrom, checkRateLimit_live config R c t ht, hc]
        simpa [Nat.add_assoc, Nat.add_comm 1 i] using this
    · have hge : config.maxRequests ≤ c := Nat.le_of_not_lt hc
      cases i with
      | zero => simp [callsFrom, checkRateLimit_live config R c t ht, hc]
      | succ i =>
        have hi' : i < ts.length := by simpa using hi
        have := ih hts c i hi'
        simp [callsFrom, checkRateLimit_live config R c t ht, hc]
        rw [this]
        exact congrArg some
          (fixedWindowResult_of_le config R
            (Nat.le_trans hge (Nat.le_add_right c i))
            (Nat.le_trans hge (Nat.le_add_right c (i + 1))))

/-- Final stored counter after a sequence of in-window calls from a live
counter with `c ≤ maxRequests`: the count saturates at `maxRequests`. -/
theorem callsFrom_live_state (config : RateLimitConfig) (R : Nat) :
    ∀ (ts : List Nat), (∀ t ∈ ts, t ≤ R) → ∀ (c : Nat), c ≤ config.maxRequests →
      (callsFrom config (some ⟨c, R⟩) ts).2 =
        some ⟨min (c + ts.length) config.maxRequests, R⟩ := by
  intro ts
  induction ts with
  | nil =>
    intro _ c hc
    simp [callsFrom, Nat.min_eq_left hc]
  | cons t ts ih =>
    intro hin c hc
    have ht : t ≤ R := hin t (by simp)
    have hts : ∀ u ∈ ts, u ≤ R := fun u hu => hin u (by simp [hu])
    by_cases hcm : c < config.maxRequests
    · have := ih hts (c + 1) hcm
      simp [callsFrom, checkRateLimit_live config R c t ht, hcm, this]
      omega
    · have hge : config.maxRequests ≤ c := Nat.le_of_not_lt hcm
      have := ih hts c hc
      simp [callsFrom, checkRateLimit_live config R c t ht, hcm, this]
      omega

/-- The first call of a window (no stored entry). -/
theorem checkRateLimit_fresh (config : RateLimitConfig) (t0 : Nat) :
    checkRateLimit t0 config none =
      (fixedWindowResult config (t0 + config.windowMs) 0,
       if 0 < config.maxRequests then ⟨1, t0 + config.windowMs⟩
       else ⟨0, t0 + config.windowMs⟩) := by
  by_cases h : 0 < config.maxRequests
  · simp [checkRateLimit, fixedWindowResult, h, Nat.not_le_of_lt h]
  · simp only [Nat.not_lt, Nat.le_zero] at h
    simp [checkRateLimit, fixedWindowResult, h]

/-- Indexwise behaviour of a whole window started by a call at `t0` with
no stored entry, followed by calls at times `rest` inside the window. -/
theorem callsFrom_fresh_get (config : RateLimitConfig)
    (hm : 1 ≤ config.maxRequests) (t0 : Nat) (rest : List Nat)
    (hin : ∀ t ∈ rest, t ≤ t0 + config.windowMs)
    (i : Nat) (hi : i < rest.length + 1) :
    ((callsFrom config none (t0 :: rest)).1)[i]? =
      some (fixedWindowResult config (t0 + config.windowMs) i) := by
  have hstep := checkRateLimit_fresh config t0
  have hm0 : 0 < config.maxRequests := hm
  cases i with
  | zero => simp [callsFrom, hstep, hm0]
  | succ i =>
    have hi' : i < rest.length := by omega
    have := callsFrom_live_get config (t0 + config.windowMs) rest hin 1 i hi'
    simp [callsFrom, hstep, hm0]
    simpa [Nat.add_comm 1 i] using this

/-- Stored counter after the whole window's calls. -/
theorem callsFrom_fresh_state (config : RateLimitConfig)
    (hm : 1 ≤ config.maxRequests) (t0 : Nat) (rest : List Nat)
    (hin : ∀ t ∈ rest, t ≤ t0 + config.windowMs) :
    (callsFrom config none (t0 :: rest)).2 =
      some ⟨min (rest.length + 1) config.maxRequests, t0 + config.windowMs⟩ := by
  have hstep := checkRateLimit_fresh config t0
  have hm0 : 0 < config.maxRequests := hm
  have := callsFrom_live_state config (t0 + config.windowMs) rest hin 1 hm
  simp [callsFrom, hstep, hm0, this, Nat.add_comm 1 rest.length]

/-- C2: for every rate-limit config and a key whose window is opened by a
call at `t0` and then called at times `rest` inside the window
(`maxRequests` further calls), the `maxRequests`-th call (index
`maxRequests - 1`) is allowed with `remaining = 0`, the
`(maxRequests+1)`-th call (index `maxRequests`) is rejected with error
code `RATE_LIMIT_EXCEEDED`, and the rejected call leaves the stored
counter at `maxRequests` (it is not incremented further). -/
theorem checkRateLimit_window_spec (config : RateLimitConfig)
    (hm : 1 ≤ config.maxRequests) (t0 : Nat) (rest : List Nat)
    (hlen : rest.length = config.maxRequests)
    (hin : ∀ t ∈ rest, t ≤ t0 + config.windowMs) :
    ((callsFrom config none (t0 :: rest)).1)[config.maxRequests - 1]? =
      some { allowed := true
             info := { limit := config.maxRequests, remaining := 0
                       reset := (t0 + config.windowMs) / 1000 }
             errorCode := none } ∧
    ((callsFrom config none (t0 :: rest)).1)[config.maxRequests]? =
      some { allowed := false
             info := { limit := config.maxRequests, remaining := 0
                       reset := (t0 + config.windowMs) / 1000 }
             errorCode := some .RATE_LIMIT_EXCEEDED } ∧
    (callsFrom config none (t0 :: rest)).2 =
      some ⟨config.maxRequests, t0 + config.windowMs⟩ := by
  refine ⟨?_, ?_, ?_⟩
  · have h := callsFrom_fresh_get config hm t0 rest hin (config.maxRequests - 1)
      (by omega)
    rw [h]
    have hlt : config.maxRequests - 1 < config.maxRequests := by omega
    have hrem : config.maxRequests - (config.maxRequests - 1) - 1 = 0 := by omega
    simp [fixedWindowResult, hlt, hrem]
  · have h := callsFrom_fresh_get config hm t0 rest hin config.maxRequests
      (by omega)
    rw [h]
    simp [fixedWindowResult]
  · have h := callsFrom_fresh_state config hm t0 rest hin
    rw [h, hlen]
    simp

/-- Witness for `checkRateLimit_window_spec`: config `(60000 ms, 2)`,
three calls at `0, 1, 2`. -/
theorem checkRateLimit_window_spec_witness :
    ((callsFrom ⟨60000, 2⟩ none [0, 1, 2]).1)[1]? =
      some { allowed := true
             info := { limit := 2, remaining := 0, reset := 60 }
             errorCode := none } ∧
    ((callsFrom ⟨60000, 2⟩ none [0, 1, 2]).1)[2]? =
      some { allowed := false
             info := { limit := 2, remaining := 0, reset := 60 }
             errorCode := some .RATE_LIMIT_EXCEEDED } ∧
    (callsFrom ⟨60000, 2⟩ none [0, 1, 2]).2 = some ⟨2, 60000⟩ :=
  checkRateLimit_window_spec ⟨60000, 2⟩ (by decide) 0 [1, 2] (by decide)
    (by decide)

/-- C3 counterexample: at the instant `now = resetAt` of an exhausted
counter, the code does NOT start a fresh window (the reset condition in
the source is the strict `entry.resetAt < now`): the call is rejected and
the stored counter keeps its old `resetAt`, whereas the claim demands a
fresh counter (`count 0`, `resetAt = now + windowMs`) and a count of 1
after the call. -/
theorem checkRateLimit_at_resetAt_cx :
    (checkRateLimit 100000 ⟨60000, 2⟩ (some ⟨2, 100000⟩)).1.allowed = false ∧
    (checkRateLimit 100000 ⟨60000, 2⟩ (some ⟨2, 100000⟩)).2 = ⟨2, 100000⟩ := by
  constructor <;> rfl

/-- C3 (amended): a fresh counter `⟨0, now + windowMs⟩` is created exactly
when no counter exists or `resetAt < now` (strictly); the same call then
increments it (to 1 when `maxRequests ≥ 1`) and is allowed; when
`now ≤ resetAt` — including the instant `now = resetAt` — the existing
window, exhausted or not, continues to apply. -/
theorem checkRateLimit_fresh_window (config : RateLimitConfig) (now : Nat) :
    (∀ stored, (stored = none ∨ ∃ e, stored = some e ∧ e.resetAt < now) →
      (checkRateLimit now config stored).2.resetAt = now + config.windowMs ∧
      (checkRateLimit now config stored).2.count = min 1 config.maxRequests ∧
      (checkRateLimit now config stored).1.allowed =
        decide (1 ≤ config.maxRequests)) ∧
    (∀ e : RateLimitEntry, now ≤ e.resetAt →
      (checkRateLimit now config (some e)).2.resetAt = e.resetAt) := by
  constructor
  · intro stored h
    have hfresh : checkRateLimit now config stored = checkRateLimit now config none := by
      rcases h with h | ⟨e, he, hlt⟩
      · rw [h]
      · subst he
        simp [checkRateLimit, hlt]
    rw [hfresh]
    by_cases hm : 1 ≤ config.maxRequests
    · simp [checkRateLimit, show ¬ config.maxRequests ≤ 0 by omega,
        Nat.min_eq_left hm, hm]
    · simp [checkRateLimit, show config.maxRequests = 0 by omega]
  · intro e he
    have hres : ¬ e.resetAt < now := Nat.not_lt_of_le he
    by_cases hc : config.maxRequests ≤ e.count <;>
      simp [checkRateLimit, hres, hc]

/-- Witness for `checkRateLimit_fresh_window`: an expired counter at
`now = 100` is replaced and the call allowed; a live counter keeps its
`resetAt`. -/
theorem checkRateLimit_fresh_window_witness :
    (checkRateLimit 100 ⟨60000, 2⟩ (some ⟨2, 50⟩)).2.resetAt = 60100 ∧
    (checkRateLimit 100 ⟨60000, 2⟩ (some ⟨2, 50⟩)).2.count = 1 ∧
    (checkRateLimit 100 ⟨60000, 2⟩ (some ⟨2, 50⟩)).1.allowed = true ∧
    (checkRateLimit 100 ⟨60000, 2⟩ (some ⟨99, 200⟩)).2.resetAt = 200 := by
  have h := checkRateLimit_fresh_window ⟨60000, 2⟩ 100
  have h1 := h.1 (some ⟨2, 50⟩) (Or.inr ⟨⟨2, 50⟩, rfl, by decide⟩)
  have h2 := h.2 ⟨99, 200⟩ (by decide)
  exact ⟨h1.1, by simpa using h1.2.1, by simpa using h1.2.2, h2⟩

/-- C5: the bearer path is attempted exactly when the session path yields
no identity; a session identity wins with no error surfaced (so an
invalid bearer token is never consulted); with no session identity a
valid bearer token authenticates the request; and when both paths fail
the reported error is the session path's error. -/
theorem composeAuth_spec (env : AuthEnv) :
    ((composeAuth env).bearerAttempted = (verifyApiAuth env.session).user.isNone) ∧
    (∀ u, (verifyApiAuth env.session).user = some u →
      (composeAuth env).user = some u ∧ (composeAuth env).error = none) ∧
    ((verifyApiAuth env.session).user = none → ∀ u,
      (verifyApiBearerAuth env.authorization env.verifyToken).user = some u →
      (composeAuth env).user = some u) ∧
    ((verifyApiAuth env.session).user = none →
      (verifyApiBearerAuth env.authorization env.verifyToken).user = none →
      (composeAuth env).user = none ∧
      (composeAuth env).error = (verifyApiAuth env.session).error) := by
  obtain ⟨s, a, v⟩ := env
  refine ⟨?_, ?_, ?_, ?_⟩
  · cases s <;> rfl
  · intro u hu
    cases s <;> simp [verifyApiAuth] at hu <;>
      simp [composeAuth, verifyApiAuth, jsOr, hu]
  · intro hs u hb
    cases s <;> simp [verifyApiAuth] at hs <;>
      simp [composeAuth, verifyApiAuth, jsOr, hb]
  · intro hs hb
    cases s <;> simp [verifyApiAuth] at hs <;>
      simp [composeAuth, verifyApiAuth, jsOr, hb]

/-- Witness for `composeAuth_spec`: no session cookie plus the valid
bearer token `"tok"` authenticates as `"u2"` via the bearer path. -/
theorem composeAuth_spec_witness :
    (composeAuth
      { session := .missing
        authorization := some "Bearer tok"
        verifyToken := fun _ => .ok "u2" }).user = some "u2" :=
  (composeAuth_spec
      { session := .missing
        authorization := some "Bearer tok"
        verifyToken := fun _ => .ok "u2" }).2.2.1 rfl "u2" (by decide)

/-- C6: `getUserRole` is total with values in the closed `UserRole` enum
(by its type); every failing or unrecognized lookup outcome maps to
`user`, and each of the three stored enum values maps to itself. -/
theorem getUserRole_total_default :
    getUserRole .err = .user ∧
    getUserRole .noRow = .user ∧
    getUserRole (.roleField none) = .user ∧
    (∀ s : String, s ∉ roleValues → getUserRole (.roleField (some s)) = .user) ∧
    getUserRole (.roleField (some "user")) = .user ∧
    getUserRole (.roleField (some "admin")) = .admin ∧
    getUserRole (.roleField (some "super_admin")) = .super_admin := by
  refine ⟨rfl, rfl, rfl, ?_, by decide, by decide, by decide⟩
  intro s hs
  by_cases h0 : s = ""
  · simp [getUserRole, h0]
  · simp [getUserRole, h0, hs]

/-- Witness for `getUserRole_total_default`: the unrecognized stored
value `"banana"` resolves to `user`. -/
theorem getUserRole_total_default_witness :
    getUserRole (.roleField (some "banana")) = .user :=
  getUserRole_total_default.2.2.2.1 "banana" (by decide)

/-- C7: `hasPermission` is monotone along `user ≤ admin ≤ super_admin`,
and `super_admin` holds every permission. -/
theorem hasPermission_monotone (p : Permission) :
    (hasPermission .user p = true →
      hasPermission .admin p = true ∧ hasPermission .super_admin p = true) ∧
    (hasPermission .admin p = true → hasPermission .super_admin p = true) ∧
    hasPermission .super_admin p = true := by
  cases p <;> exact ⟨by decide, by decide, by decide⟩

/-- Witness for `hasPermission_monotone` at `VIEW_OWN_PROFILE`. -/
theorem hasPermission_monotone_witness :
    hasPermission .admin .VIEW_OWN_PROFILE = true ∧
    hasPermission .super_admin .VIEW_OWN_PROFILE = true :=
  ⟨((hasPermission_monotone .VIEW_OWN_PROFILE).1 (by decide)).1,
   ((hasPermission_monotone .VIEW_OWN_PROFILE).1 (by decide)).2⟩

/-- Every audit write returns normally, whatever the insert did. -/
theorem logAdminAction_ok (action adminId resourceType : String)
    (resourceId : Option String) (insert : InsertOutcome) :
    logAdminAction action adminId resourceType resourceId insert =
      Except.ok () := by
  cases insert <;> rfl

/-- C8: `AuditLogger.log` never propagates a failure — it returns
normally for every entry and insert outcome — and consequently the
response (status, body, headers) of the delete route is identical
whatever the audit insert did. -/
theorem auditLog_best_effort :
    (∀ (entry : AuditLogEntry) (insert : InsertOutcome),
      auditLog entry insert = Except.ok ()) ∧
    (∀ (env : AdminDeleteEnv) (o₁ o₂ : InsertOutcome),
      (adminUserDELETE { env with audit := o₁ }).1 =
        (adminUserDELETE { env with audit := o₂ }).1) := by
  constructor
  · intro entry insert
    cases insert <;> rfl
  · intro env o₁ o₂
    cases o₁ <;> cases o₂ <;> rfl

/-- C9: the three destructive admin operations are gated on
`role === 'super_admin'` exactly.  An authenticated caller whose resolved
role is not `super_admin` gets a 403 from the delete route and from the
create route with no effect and no audit step executed, and (for an
otherwise well-formed refund request) a 403 from the refund action with
no refund and no audit step; moreover the delete/create effects can
never execute for such a caller. -/
theorem super_admin_only_destructive :
    (∀ (env : AdminDeleteEnv) (uid : String), env.rl.allowed = true →
      env.authUser = some uid → getUserRole env.roleLookup ≠ .super_admin →
      (adminUserDELETE env).1.status = 403 ∧
      (adminUserDELETE env).2 = [.rateLimitCall, .authCall]) ∧
    (∀ env : AdminDeleteEnv, getUserRole env.roleLookup ≠ .super_admin →
      RouteEvent.deleteUserCall ∉ (adminUserDELETE env).2 ∧
      RouteEvent.auditCall ∉ (adminUserDELETE env).2) ∧
    (∀ (env : AdminCreateEnv) (uid : String), env.rl.allowed = true →
      env.authUser = some uid → getUserRole env.roleLookup ≠ .super_admin →
      (adminUsersPOST env).1.status = 403 ∧
      (adminUsersPOST env).2 = [.rateLimitCall, .authCall]) ∧
    (∀ env : AdminCreateEnv, getUserRole env.roleLookup ≠ .super_admin →
      RouteEvent.createUserCall ∉ (adminUsersPOST env).2) ∧
    (∀ (env : AdminSubEnv) (uid : String) (b : SubActionBody) (sub : SubRecord),
      env.rl.allowed = true → env.authUser = some uid →
      env.body = some b → b.action = some "refund" →
      jsFalsyStr b.subscriptionId = false →
      env.subscription = some sub → sub.stripeSubId.isNone = false →
      getUserRole env.roleLookup ≠ .super_admin →
      (adminSubscriptionsPOST env).1.status = 403 ∧
      (adminSubscriptionsPOST env).2 = [.rateLimitCall, .authCall]) := by
  refine ⟨?_, ?_, ?_, ?_, ?_⟩
  · intro env uid h1 h2 h3
    simp [adminUserDELETE, h1, h2, h3, createAdminErrorResponse]
  · intro env h3
    by_cases h1 : env.rl.allowed
    · cases h2 : env.authUser with
      | none => simp [adminUserDELETE, h1, h2]
      | some uid => simp [adminUserDELETE, h1, h2, h3]
    · simp at h1
      simp [adminUserDELETE, h1]
  · intro env uid h1 h2 h3
    simp [adminUsersPOST, h1, h2, h3, createAdminErrorResponse]
  · intro env h3
    by_cases h1 : env.rl.allowed
    · cases h2 : env.authUser with
      | none => simp [adminUsersPOST, h1, h2]
      | some uid => simp [adminUsersPOST, h1, h2, h3]
    · simp at h1
      simp [adminUsersPOST, h1]
  · intro env uid b sub h1 h2 h3 h4 h5 h6 h7 h8
    cases hr : getUserRole env.roleLookup with
    | super_admin => exact absurd hr h8
    | user =>
      simp [adminSubscriptionsPOST, h1, h2, hr, isAdmin, createAdminErrorResponse]
    | admin =>
      simp [jsFalsyStr] at h5
      simp [adminSubscriptionsPOST, h1, h2, h3, h4, h5, h6, h7, hr, isAdmin,
        jsFalsyStr, createAdminErrorResponse]

/-- Witness for `super_admin_only_destructive`: an `admin` caller is
answered 403 by the delete route and by the refund action. -/
theorem super_admin_only_destructive_witness :
    (adminUserDELETE adminDeleteAsAdminEnv).1.status = 403 ∧
    (adminSubscriptionsPOST refundAsAdminEnv).1.status = 403 :=
  ⟨(super_admin_only_destructive.1 adminDeleteAsAdminEnv "a1" rfl rfl
      (by decide)).1,
   (super_admin_only_destructive.2.2.2.2 refundAsAdminEnv "a1"
      { action := some "refund", subscriptionId := some "sub1" }
      { stripeSubId := some "stripeSub1", status := "active"
        cancelAtPeriodEnd := false }
      rfl rfl rfl rfl (by decide) rfl rfl (by decide)).1⟩

/-- C1 counterexample: on `GET /api/v1/projects` a request whose
rate-limit check fails is answered 429, yet the authenticator ran first
(the executed steps are `[authCall, rateLimitCall]`) — the projects and
profile routes authenticate before the rate-limit check, so the claimed
fixed order does not hold for every protected operation. -/
theorem projects_auth_before_rateLimit_cx :
    (projectsGET projectsRateLimitedEnv).1.status = 429 ∧
    (projectsGET projectsRateLimitedEnv).2 =
      [RouteEvent.authCall, RouteEvent.rateLimitCall] := by
  constructor <;> rfl

/-- C1 (amended): the admin routes run the rate-limit check first and
answer 429 without ever invoking the authenticator; the projects and
profile routes instead authenticate first — an unauthenticated request is
answered 401 with no rate-limit check at all, and their rate-limit check
runs only for authenticated requests. -/
theorem pipeline_order_amended :
    (∀ env : AdminListEnv, env.rl.allowed = false →
      (adminUsersGET env).1.status = 429 ∧
      (adminUsersGET env).2 = [RouteEvent.rateLimitCall]) ∧
    (∀ env : AdminDeleteEnv, env.rl.allowed = false →
      (adminUserDELETE env).1.status = 429 ∧
      (adminUserDELETE env).2 = [RouteEvent.rateLimitCall]) ∧
    (∀ env : ProjectsEnv, (composeAuth env.auth).user = none →
      (projectsGET env).1.status = 401 ∧
      (projectsGET env).2 = [RouteEvent.authCall]) ∧
    (∀ env : ProjectsEnv, RouteEvent.rateLimitCall ∈ (projectsGET env).2 →
      (composeAuth env.auth).user ≠ none) ∧
    (∀ env : ProfileEnv, RouteEvent.rateLimitCall ∈ (profileGET env).2 →
      (composeAuth env.auth).user ≠ none) := by
  refine ⟨?_, ?_, ?_, ?_, ?_⟩
  · intro env h
    simp [adminUsersGET, h, createAdminErrorResponse]
  · intro env h
    simp [adminUserDELETE, h, createAdminErrorResponse]
  · intro env hu
    simp [projectsGET, hu, createErrorResponse]
  · intro env hmem hu
    simp [projectsGET, hu] at hmem
  · intro env hmem hu
    simp [profileGET, hu] at hmem

/-- Witness for `pipeline_order_amended`: a rate-limited admin list
request is a bare 429, and an unauthenticated projects request is a 401
that never reached the rate limiter. -/
theorem pipeline_order_amended_witness :
    ((adminUsersGET
        { rl := { allowed := false, limit := 60, remaining := 0
                  resetTime := 60000 }
          authUser := some "a1", roleLookup := .roleField (some "admin")
          pageP := none, limitP := none, dbOk := true }).1.status = 429) ∧
    ((projectsGET projectsNoCredsEnv).1.status = 401) :=
  ⟨(pipeline_order_amended.1 _ rfl).1,
   (pipeline_order_amended.2.2.1 projectsNoCredsEnv rfl).1⟩

/-- C4 counterexample: a request with no session cookie and no
`Authorization` header on `GET /api/v1/projects` is answered 401
`UNAUTHORIZED` with none of the three rate-limit headers. -/
theorem projects_401_no_rate_limit_headers_cx :
    (projectsGET projectsNoCredsEnv).1.status = 401 ∧
    (projectsGET projectsNoCredsEnv).1.body = "UNAUTHORIZED" ∧
    hasRateLimitHeaders (projectsGET projectsNoCredsEnv).1 = false := by
  refine ⟨rfl, rfl, rfl⟩

/-- Attaching the rate-limit headers makes all three present. -/
theorem hasRateLimitHeaders_with (r : HttpResponse) :
    hasRateLimitHeaders (withRateLimitHeaders r) = true := by
  simp [hasRateLimitHeaders, withRateLimitHeaders, addRateLimitHeaders,
    rlHeaderNames, List.contains]

/-- The v1 error responses carry no rate-limit headers by themselves. -/
theorem hasRateLimitHeaders_createErrorResponse (code : ApiErrorCode)
    (status : Nat) :
    hasRateLimitHeaders (createErrorResponse code status) = false := rfl

/-- C4 (amended): the three rate-limit headers are attached exactly on
responses produced after the rate-limit check ran: on the projects and
profile routes every response of an authenticated request carries them
(success, 429 and handler errors alike) but the 401 of an
unauthenticated request carries none; on the admin routes the 429
rate-limit rejection carries them while the 401 does not. -/
theorem rate_limit_headers_amended :
    (∀ env : ProjectsEnv, (composeAuth env.auth).user ≠ none →
      hasRateLimitHeaders (projectsGET env).1 = true) ∧
    (∀ env : ProfileEnv, (composeAuth env.auth).user ≠ none →
      hasRateLimitHeaders (profileGET env).1 = true) ∧
    (∀ env : ProjectsEnv, (composeAuth env.auth).user = none →
      hasRateLimitHeaders (projectsGET env).1 = false) ∧
    (∀ env : AdminDeleteEnv, env.rl.allowed = false →
      hasRateLimitHeaders (adminUserDELETE env).1 = true) ∧
    (∀ env : AdminDeleteEnv, env.rl.allowed = true → env.authUser = none →
      hasRateLimitHeaders (adminUserDELETE env).1 = false) := by
  refine ⟨?_, ?_, ?_, ?_, ?_⟩
  · intro env hu
    cases h : (composeAuth env.auth).user with
    | none => exact absurd h hu
    | some u =>
      simp only [projectsGET, h]
      split_ifs <;> exact hasRateLimitHeaders_with _
  · intro env hu
    cases h : (composeAuth env.auth).user with
    | none => exact absurd h hu
    | some u =>
      simp only [profileGET, h]
      exact hasRateLimitHeaders_with _
  · intro env hu
    simp [projectsGET, hu, hasRateLimitHeaders_createErrorResponse]
  · intro env h
    simp [adminUserDELETE, h, hasRateLimitHeaders, createAdminErrorResponse,
      rlHeaderNames]
  · intro env h1 h2
    simp [adminUserDELETE, h1, h2, hasRateLimitHeaders,
      createAdminErrorResponse]

/-- Witness for `rate_limit_headers_amended`: an authenticated projects
request carries the three headers; the unauthenticated one carries
none. -/
theorem rate_limit_headers_amended_witness :
    hasRateLimitHeaders
      (projectsGET
        { auth := { session := .ok "u1", authorization := none
                    verifyToken := fun _ => .invalid }
          now := 0, stored := none, dbOk := true }).1 = true ∧
    hasRateLimitHeaders (projectsGET projectsNoCredsEnv).1 = false :=
  ⟨rate_limit_headers_amended.1 _ (by decide),
   rate_limit_headers_amended.2.2.1 projectsNoCredsEnv rfl⟩

/-- C10 counterexample: with `?page=abc` (present but not numeric),
`parseInt` yields `NaN`, `Math.max(1, NaN)` is `NaN`, so the returned
`page` is `NaN` — not a number at least 1 and not the default 1. -/
theorem parsePaginationParams_nan_cx :
    (parsePaginationParams (some "abc") none none none).page = JsNum.nan ∧
    jsNumAtLeast 1 (parsePaginationParams (some "abc") none none none).page
      = false := by
  constructor <;> rfl

/-- C10 (amended): whenever the `page` (resp. `limit`) parameter is
absent, empty, or parses to a number, the clamping works as claimed —
`page ≥ 1`, `1 ≤ limit ≤ 100`, with defaults 1 and 10 when absent; but a
present non-numeric parameter makes the corresponding field `NaN`. -/
theorem parsePaginationParams_amended :
    (∀ pP lP sP oP, parseIntJs (paramOr pP "1") ≠ JsNum.nan →
      jsNumAtLeast 1 (parsePaginationParams pP lP sP oP).page = true) ∧
    (∀ pP lP sP oP, parseIntJs (paramOr lP "10") ≠ JsNum.nan →
      jsNumAtLeast 1 (parsePaginationParams pP lP sP oP).limit = true ∧
      jsNumAtMost 100 (parsePaginationParams pP lP sP oP).limit = true) ∧
    (∀ lP sP oP, (parsePaginationParams none lP sP oP).page = JsNum.num 1) ∧
    (∀ pP sP oP, (parsePaginationParams pP none sP oP).limit = JsNum.num 10) ∧
    (∀ pP lP sP oP, parseIntJs (paramOr pP "1") = JsNum.nan →
      (parsePaginationParams pP lP sP oP).page = JsNum.nan) ∧
    (∀ pP lP sP oP, parseIntJs (paramOr lP "10") = JsNum.nan →
      (parsePaginationParams pP lP sP oP).limit = JsNum.nan) := by
  refine ⟨?_, ?_, ?_, ?_, ?_, ?_⟩
  · intro pP lP sP oP h
    cases hp : parseIntJs (paramOr pP "1") with
    | nan => exact absurd hp h
    | num n =>
      simp [parsePaginationParams, hp, jsMax, jsNumAtLeast]
  · intro pP lP sP oP h
    cases hl : parseIntJs (paramOr lP "10") with
    | nan => exact absurd hl h
    | num n =>
      constructor <;>
        simp [parsePaginationParams, hl, jsMax, jsMin, jsNumAtLeast,
          jsNumAtMost] <;> omega
  · intro lP sP oP
    rfl
  · intro pP sP oP
    rfl
  · intro pP lP sP oP h
    simp [parsePaginationParams, h, jsMax]
  · intro pP lP sP oP h
    simp [parsePaginationParams, h, jsMax, jsMin]

/-- Witness for `parsePaginationParams_amended`: `?page=7&limit=250`
clamps to `page = 7`, `limit = 100`. -/
theorem parsePaginationParams_amended_witness :
    jsNumAtLeast 1
      (parsePaginationParams (some "7") (some "250") none none).page = true ∧
    jsNumAtLeast 1
      (parsePaginationParams (some "7") (some "250") none none).limit = true ∧
    jsNumAtMost 100
      (parsePaginationParams (some "7") (some "250") none none).limit = true :=
  ⟨parsePaginationParams_amended.1 (some "7") (some "250") none none
      (by decide),
   (parsePaginationParams_amended.2.1 (some "7") (some "250") none none
      (by decide)).1,
   (parsePaginationParams_amended.2.1 (some "7") (some "250") none none
      (by decide)).2⟩
